import Mathlib

/-!
Shallow embedding of the Content Aggregation and Query Layer of the
SJUACM/sju-mcp repository.

Sources embedded:
* `src/app/utils/contentful.ts` — client initialization and the per-type
  query resolvers (`getAllPosts`, `getPostBySlug`, `getAllMeetings`,
  `getUpcomingMeetings`, `getParallaxBanners`, `getCurrentEboardMembers`,
  `getPastEboardMembers`, `getAllHackathons`, `getHackathonsByStatus`,
  `getHackathonBySlug`, `getLandingPageGraphicByTitle`,
  `getAllLandingPageGraphics`).
* The MCP handler (the `search-content` tool and the `contentful-stats`
  resource).

Modelling conventions:
* A remote call (`client.getEntries`) either throws or yields a list of
  items; its outcome is embedded as `Except String (List α)` and passed to
  each resolver, mirroring the `try`/`catch` structure of the TypeScript.
* The query object each resolver hands to `getEntries` is embedded as a
  `GetEntriesQuery` value, so that properties of the issued request
  (content type, filters, limit) are statable.
* Optional chaining over nested asset objects (`x?.fields?.file?.url`) is
  embedded with `Option` at every level.
* `new Date(s).getTime()` timestamps are embedded as `Int` values: date
  parsing itself is outside the layer under verification, only the
  comparison of the parsed values matters to it.
* JavaScript's `text.toLowerCase().includes(q.toLowerCase())` is embedded
  as an executable character-list substring test.
-/

/-- A file object inside a Contentful asset; `url` is optional because the
code only ever reaches it through optional chaining. -/
structure FileRef where
  url : Option String
  deriving DecidableEq, Repr

/-- The `fields` object of a Contentful asset. -/
structure AssetFields where
  file : Option FileRef
  deriving DecidableEq, Repr

/-- A linked Contentful asset (`image`, `graphic`, `coverImage`, ...). -/
structure Asset where
  fields : Option AssetFields
  deriving DecidableEq, Repr

/-- The value of the optional chain `asset.fields?.file?.url`. -/
def Asset.fileUrl (a : Asset) : Option String :=
  (a.fields.bind (fun f => f.file)).bind (fun f => f.url)

/-- The `sys` object of a Contentful entry: the store-assigned identifier. -/
structure SysInfo where
  id : String
  deriving DecidableEq, Repr

/-- Hackathon status enumeration (`"ongoing" | "upcoming" | "past"`). -/
inductive HackStatus
  | ongoing
  | upcoming
  | past
  deriving DecidableEq, Repr

/-- Eboard member type enumeration (`"current" | "past"`). -/
inductive MemberType
  | current
  | past
  deriving DecidableEq, Repr

/-- Fields of a `BlogPost` entry. -/
structure BlogPostFields where
  title : String
  slug : String
  excerpt : String
  author : String
  publishDate : String
  coverImage : Option Asset
  deriving DecidableEq, Repr

/-- A `BlogPost` entry; `contentTypeId` is arbitrary on a raw record and is
overwritten by the resolvers. -/
structure BlogPost where
  sys : SysInfo
  contentTypeId : String
  fields : BlogPostFields
  deriving DecidableEq, Repr

/-- Fields of a `Meeting` entry; `date` is the parsed timestamp. -/
structure MeetingFields where
  title : String
  date : Int
  description : String
  image : Option Asset
  meetingLocation : Option String
  slidesUrl : Option String
  recording : Option String
  resourcesUrl : Option String
  deriving DecidableEq, Repr

/-- A `Meeting` entry. -/
structure Meeting where
  sys : SysInfo
  contentTypeId : String
  fields : MeetingFields
  deriving DecidableEq, Repr

/-- Fields of an `EboardMember` entry. -/
structure EboardMemberFields where
  name : String
  position : String
  description : String
  linkedin : String
  github : Option String
  year : Option String
  image : Option Asset
  memberType : MemberType
  deriving DecidableEq, Repr

/-- An `EboardMember` entry. -/
structure EboardMember where
  sys : SysInfo
  contentTypeId : String
  fields : EboardMemberFields
  deriving DecidableEq, Repr

/-- Fields of a `Hackathon` entry; `status` may be absent on old records. -/
structure HackathonFields where
  title : String
  slug : Option String
  description : String
  startDate : Option String
  endDate : Option String
  status : Option HackStatus
  registrationLink : Option String
  image : Option Asset
  deriving DecidableEq, Repr

/-- A `Hackathon` entry. -/
structure Hackathon where
  sys : SysInfo
  contentTypeId : String
  fields : HackathonFields
  deriving DecidableEq, Repr

/-- Fields of a `LandingPageGraphic` entry: the picture may live under
either `image` or `graphic`. -/
structure LandingPageGraphicFields where
  title : String
  description : Option String
  image : Option Asset
  graphic : Option Asset
  deriving DecidableEq, Repr

/-- A `LandingPageGraphic` entry. -/
structure LandingPageGraphic where
  sys : SysInfo
  contentTypeId : String
  fields : LandingPageGraphicFields
  deriving DecidableEq, Repr

/-- Fields of a `ParallaxBanner` entry. -/
structure ParallaxBannerFields where
  title : String
  image : Option Asset
  link : Option String
  deriving DecidableEq, Repr

/-- A `ParallaxBanner` entry. -/
structure ParallaxBanner where
  sys : SysInfo
  contentTypeId : String
  fields : ParallaxBannerFields
  deriving DecidableEq, Repr

/-- The query object a resolver passes to `client.getEntries`:
a content-type discriminator, field-equality (or match) filters, an
optional sort key and an optional result-count ceiling. -/
structure GetEntriesQuery where
  content_type : String
  fieldFilters : List (String × String) := []
  order : Option String := none
  limit : Option Nat := none
  deriving DecidableEq, Repr

/-- The two kinds of client `contentful.ts` can end up with: the real
Contentful client, or the dummy fallback installed in the `catch` block. -/
inductive ClientKind
  | real
  | dummy
  deriving DecidableEq, Repr

/-- Module-level client initialization of `contentful.ts` (lines 184-218):
if either credential is empty the code throws inside its own `try`, and any
construction failure is caught and replaced by the dummy client. -/
def initClient (spaceId accessToken : String) (constructThrows : Bool) : ClientKind :=
  if spaceId = "" ∨ accessToken = "" then ClientKind.dummy
  else if constructThrows then ClientKind.dummy
  else ClientKind.real

/-- The dummy client's `getEntries`: `async () => ({ items: [] })` — it
never throws and always resolves with an empty item list. -/
def dummyGetEntries (_q : GetEntriesQuery) : Except String (List α) :=
  Except.ok []

/-- Query issued by `getAllPosts`. -/
def getAllPostsQuery : GetEntriesQuery :=
  { content_type := "blogPost", order := some "-sys.createdAt" }

/-- Query issued by `getPostBySlug`. -/
def getPostBySlugQuery (slug : String) : GetEntriesQuery :=
  { content_type := "blogPost", fieldFilters := [("fields.slug[match]", slug)],
    limit := some 1 }

/-- Query issued by `getAllMeetings`. -/
def getAllMeetingsQuery : GetEntriesQuery :=
  { content_type := "meeting", order := some "-fields.date" }

/-- Query issued by `getUpcomingMeetings`. -/
def getUpcomingMeetingsQuery : GetEntriesQuery :=
  { content_type := "upcomingMeeting", order := some "-sys.createdAt" }

/-- Query issued by `getParallaxBanners`. -/
def getParallaxBannersQuery : GetEntriesQuery :=
  { content_type := "parallaxBanner", order := some "-sys.createdAt" }

/-- Query issued by `getCurrentEboardMembers`. -/
def getCurrentEboardMembersQuery : GetEntriesQuery :=
  { content_type := "eboardMember",
    fieldFilters := [("fields.memberType", "current")],
    order := some "sys.createdAt" }

/-- Query issued by `getPastEboardMembers`. -/
def getPastEboardMembersQuery : GetEntriesQuery :=
  { content_type := "eboardMember",
    fieldFilters := [("fields.memberType", "past")],
    order := some "sys.createdAt" }

/-- Query issued by `getAllHackathons`. -/
def getAllHackathonsQuery : GetEntriesQuery :=
  { content_type := "hackathon", order := some "-fields.startDate" }

/-- Query issued by `getHackathonsByStatus`: no status filter, page capped
at 100 (the code comments that the `status` field may not exist). -/
def getHackathonsByStatusQuery : GetEntriesQuery :=
  { content_type := "hackathon", limit := some 100 }

/-- Query issued by `getHackathonBySlug`: no slug filter, page capped
at 100. -/
def getHackathonBySlugQuery : GetEntriesQuery :=
  { content_type := "hackathon", limit := some 100 }

/-- Query issued by `getLandingPageGraphicByTitle`. -/
def getLandingPageGraphicByTitleQuery (title : String) : GetEntriesQuery :=
  { content_type := "landingPageGraphics",
    fieldFilters := [("fields.title", title)], limit := some 1 }

/-- Query issued by `getAllLandingPageGraphics`. -/
def getAllLandingPageGraphicsQuery : GetEntriesQuery :=
  { content_type := "landingPageGraphics", order := some "sys.createdAt" }

/-- `getAllPosts` (contentful.ts lines 220-240): on success every item is
re-stamped with `contentTypeId := "blogPost"`; any thrown error is caught
and the empty array returned. -/
def getAllPosts (resp : Except String (List BlogPost)) : List BlogPost :=
  match resp with
  | Except.error _ => []
  | Except.ok items =>
      items.map (fun item => { item with contentTypeId := "blogPost" })

/-- `getPostBySlug` (lines 242-262): the slug filter is applied server-side
through `getPostBySlugQuery`; the resolver returns the first item, stamped,
or `null`. -/
def getPostBySlug (slug : String) (resp : Except String (List BlogPost)) :
    Option BlogPost :=
  match resp with
  | Except.error _ => none
  | Except.ok [] => none
  | Except.ok (item :: _) => some { item with contentTypeId := "blogPost" }

/-- Insertion step of the stable client-side sort used by
`getAllMeetings`. -/
def insertSorted (le : α → α → Bool) (x : α) : List α → List α
  | [] => [x]
  | y :: ys => if le y x then y :: insertSorted le x ys else x :: y :: ys

/-- Client-side sort used by `getAllMeetings` (a deterministic embedding of
`Array.prototype.sort` with a two-argument comparator). -/
def sortBy (le : α → α → Bool) : List α → List α
  | [] => []
  | x :: xs => insertSorted le x (sortBy le xs)

/-- `getAllMeetings` (lines 264-285): items are re-sorted client-side by
descending `date` (comparator `dateB - dateA`), then stamped. -/
def getAllMeetings (resp : Except String (List Meeting)) : List Meeting :=
  match resp with
  | Except.error _ => []
  | Except.ok items =>
      (sortBy (fun a b => decide (b.fields.date ≤ a.fields.date)) items).map
        (fun item => { item with contentTypeId := "meeting" })

/-- `getUpcomingMeetings` (lines 287-302): a distinct logical content type
`"upcomingMeeting"`, store order kept. -/
def getUpcomingMeetings (resp : Except String (List Meeting)) : List Meeting :=
  match resp with
  | Except.error _ => []
  | Except.ok items =>
      items.map (fun item => { item with contentTypeId := "upcomingMeeting" })

/-- `getParallaxBanners` (lines 304-319). -/
def getParallaxBanners (resp : Except String (List ParallaxBanner)) :
    List ParallaxBanner :=
  match resp with
  | Except.error _ => []
  | Except.ok items =>
      items.map (fun item => { item with contentTypeId := "parallaxBanner" })

/-- `getCurrentEboardMembers` (lines 321-337): the `memberType = current`
filter is server-side, in `getCurrentEboardMembersQuery`. -/
def getCurrentEboardMembers (resp : Except String (List EboardMember)) :
    List EboardMember :=
  match resp with
  | Except.error _ => []
  | Except.ok items =>
      items.map (fun item => { item with contentTypeId := "eboardMember" })

/-- `getPastEboardMembers` (lines 339-355). -/
def getPastEboardMembers (resp : Except String (List EboardMember)) :
    List EboardMember :=
  match resp with
  | Except.error _ => []
  | Except.ok items =>
      items.map (fun item => { item with contentTypeId := "eboardMember" })

/-- `getAllHackathons` (lines 380-406). -/
def getAllHackathons (resp : Except String (List Hackathon)) :
    List Hackathon :=
  match resp with
  | Except.error _ => []
  | Except.ok items =>
      items.map (fun item => { item with contentTypeId := "hackathon" })

/-- `getHackathonsByStatus` (lines 408-434): manual client-side filter with
`item.fields.status || "upcoming"` as the fallback classification. -/
def getHackathonsByStatus (status : HackStatus)
    (resp : Except String (List Hackathon)) : List Hackathon :=
  match resp with
  | Except.error _ => []
  | Except.ok items =>
      (items.filter
          (fun item => item.fields.status.getD HackStatus.upcoming == status)).map
        (fun item => { item with contentTypeId := "hackathon" })

/-- `getHackathonBySlug` (lines 436-469): despite the parameter name, the
lookup is `items.find(item => item.sys.id === slug)`. -/
def getHackathonBySlug (slug : String)
    (resp : Except String (List Hackathon)) : Option Hackathon :=
  match resp with
  | Except.error _ => none
  | Except.ok items =>
      (items.find? (fun item => item.sys.id == slug)).map
        (fun item => { item with contentTypeId := "hackathon" })

/-- The local `imageUrl` computed (and only logged) by
`getLandingPageGraphicByTitle` (lines 504-515): the `image` chain is tried
first, then the `graphic` chain. -/
def landingGraphicImageUrl (f : LandingPageGraphicFields) : Option String :=
  match f.image.bind Asset.fileUrl with
  | some u => some u
  | none => f.graphic.bind Asset.fileUrl

/-- `getLandingPageGraphicByTitle` (lines 471-534): short-circuits to
`null` when credentials are absent; otherwise takes the first item of the
title-filtered page and backfills `fields.image` with
`item.fields.image || (hasGraphicField ? item.fields.graphic : undefined)`.
The `title` filter itself is server-side, in
`getLandingPageGraphicByTitleQuery`. -/
def getLandingPageGraphicByTitle (title : String) (credsPresent : Bool)
    (resp : Except String (List LandingPageGraphic)) :
    Option LandingPageGraphic :=
  if credsPresent = false then none
  else
    match resp with
    | Except.error _ => none
    | Except.ok [] => none
    | Except.ok (item :: _) =>
        some { item with
               fields := { item.fields with
                           image := item.fields.image.orElse
                             (fun _ => item.fields.graphic) },
               contentTypeId := "landingPageGraphics" }

/-- `getAllLandingPageGraphics` (lines 536-553). -/
def getAllLandingPageGraphics
    (resp : Except String (List LandingPageGraphic)) :
    List LandingPageGraphic :=
  match resp with
  | Except.error _ => []
  | Except.ok items =>
      items.map
        (fun item => { item with contentTypeId := "landingPageGraphics" })

/-- Leading-pattern test on character lists (helper for the substring
test). -/
def hasPrefixChars : List Char → List Char → Bool
  | [], _ => true
  | _ :: _, [] => false
  | c :: cs, d :: ds => c == d && hasPrefixChars cs ds

/-- Substring test on character lists (helper for the substring test). -/
def hasSubChars (needle : List Char) : List Char → Bool
  | [] => needle.isEmpty
  | c :: tl => hasPrefixChars needle (c :: tl) || hasSubChars needle tl

/-- The `matchesQuery` helper of the `search-content` tool:
`text.toLowerCase().includes(searchQuery.toLowerCase())`. -/
def matchesQuery (searchQuery text : String) : Bool :=
  hasSubChars (searchQuery.data.map Char.toLower) (text.data.map Char.toLower)

/-- The six content-type names accepted by the `contentTypes` parameter of
`search-content`. -/
inductive CType
  | blogPost
  | meeting
  | eboardMember
  | hackathon
  | landingPageGraphics
  | parallaxBanner
  deriving DecidableEq, Repr

/-- Default value of `typesToSearch` in `search-content`: all six names. -/
def defaultSearchTypes : List CType :=
  [CType.blogPost, CType.meeting, CType.eboardMember, CType.hackathon,
   CType.landingPageGraphics, CType.parallaxBanner]

/-- A projected record in a `search-content` result array (the object
literals built in the four `.map` calls of the tool). -/
inductive SearchResultItem
  | post (id title slug excerpt author : String)
  | meeting (id title : String) (date : Int) (description : String)
  | member (id name position : String) (memberType : MemberType)
  | hackathon (id title description : String) (status : Option HackStatus)
  deriving DecidableEq, Repr

/-- Match predicate for blog posts: title, excerpt or author. -/
def postMatches (q : String) (p : BlogPost) : Bool :=
  matchesQuery q p.fields.title || matchesQuery q p.fields.excerpt ||
    matchesQuery q p.fields.author

/-- Match predicate for meetings: title or description. -/
def meetingMatches (q : String) (m : Meeting) : Bool :=
  matchesQuery q m.fields.title || matchesQuery q m.fields.description

/-- Match predicate for eboard members: name, position or description. -/
def memberMatches (q : String) (m : EboardMember) : Bool :=
  matchesQuery q m.fields.name || matchesQuery q m.fields.position ||
    matchesQuery q m.fields.description

/-- Match predicate for hackathons: title or description. -/
def hackathonMatches (q : String) (h : Hackathon) : Bool :=
  matchesQuery q h.fields.title || matchesQuery q h.fields.description

/-- Projection applied to a matched blog post. -/
def projPost (p : BlogPost) : SearchResultItem :=
  SearchResultItem.post p.sys.id p.fields.title p.fields.slug
    p.fields.excerpt p.fields.author

/-- Projection applied to a matched meeting. -/
def projMeeting (m : Meeting) : SearchResultItem :=
  SearchResultItem.meeting m.sys.id m.fields.title m.fields.date
    m.fields.description

/-- Projection applied to a matched eboard member. -/
def projMember (m : EboardMember) : SearchResultItem :=
  SearchResultItem.member m.sys.id m.fields.name m.fields.position
    m.fields.memberType

/-- Projection applied to a matched hackathon. -/
def projHackathon (h : Hackathon) : SearchResultItem :=
  SearchResultItem.hackathon h.sys.id h.fields.title h.fields.description
    h.fields.status

/-- The blog-post block of `search-content`:
`posts.filter(...).slice(0, limit).map(...)`. -/
def searchBlogPosts (q : String) (limit : Nat) (posts : List BlogPost) :
    List SearchResultItem :=
  (((posts.filter (postMatches q)).take limit).map projPost)

/-- The meetings block of `search-content`. -/
def searchMeetings (q : String) (limit : Nat) (meetings : List Meeting) :
    List SearchResultItem :=
  (((meetings.filter (meetingMatches q)).take limit).map projMeeting)

/-- The eboard-members block of `search-content` (applied to
`[...current, ...past]`). -/
def searchMembers (q : String) (limit : Nat) (members : List EboardMember) :
    List SearchResultItem :=
  (((members.filter (memberMatches q)).take limit).map projMember)

/-- The hackathons block of `search-content`. -/
def searchHackathons (q : String) (limit : Nat) (hacks : List Hackathon) :
    List SearchResultItem :=
  (((hacks.filter (hackathonMatches q)).take limit).map projHackathon)

/-- The outcomes of the five remote fetches `search-content` can issue
(blog posts, meetings, current and past eboard members, hackathons). -/
structure SearchFetches where
  posts : Except String (List BlogPost)
  meetings : Except String (List Meeting)
  currentEboard : Except String (List EboardMember)
  pastEboard : Except String (List EboardMember)
  hackathons : Except String (List Hackathon)
  deriving Repr

/-- The JSON envelope returned by `search-content`: the echoed query, the
`typesToSearch` list, the computed total, and the `searchResults` object
(an association list in key-insertion order). -/
structure SearchEnvelope where
  searchQuery : String
  contentTypes : List CType
  totalResults : Nat
  results : List (String × List SearchResultItem)
  deriving Repr

/-- The `search-content` tool (handler lines 607-728): default type list,
per-type filter + slice + projection blocks guarded by
`typesToSearch.includes(...)`, and a total computed by summing the lengths
of the per-type arrays. -/
def searchContent (searchQuery : String) (contentTypes : Option (List CType))
    (limitOpt : Option Nat) (f : SearchFetches) : SearchEnvelope :=
  let limit := limitOpt.getD 5
  let typesToSearch := contentTypes.getD defaultSearchTypes
  let blk1 :=
    if typesToSearch.contains CType.blogPost then
      [("blogPosts", searchBlogPosts searchQuery limit (getAllPosts f.posts))]
    else []
  let blk2 :=
    if typesToSearch.contains CType.meeting then
      [("meetings", searchMeetings searchQuery limit (getAllMeetings f.meetings))]
    else []
  let blk3 :=
    if typesToSearch.contains CType.eboardMember then
      [("eboardMembers",
        searchMembers searchQuery limit
          (getCurrentEboardMembers f.currentEboard ++
            getPastEboardMembers f.pastEboard))]
    else []
  let blk4 :=
    if typesToSearch.contains CType.hackathon then
      [("hackathons",
        searchHackathons searchQuery limit (getAllHackathons f.hackathons))]
    else []
  let results := blk1 ++ blk2 ++ blk3 ++ blk4
  { searchQuery := searchQuery
    contentTypes := typesToSearch
    totalResults := (results.map (fun kv => kv.2.length)).sum
    results := results }

/-- The `counts` object of the `contentful-stats` resource. -/
structure StatsCounts where
  blogPosts : Nat
  meetings : Nat
  currentEboardMembers : Nat
  pastEboardMembers : Nat
  hackathons : Nat
  landingPageGraphics : Nat
  parallaxBanners : Nat
  deriving DecidableEq, Repr

/-- The success payload of `contentful-stats`: counts plus the
`lastUpdated` timestamp. -/
structure StatsOverview where
  counts : StatsCounts
  lastUpdated : String
  deriving DecidableEq, Repr

/-- The `contentful-stats` resource (handler lines 127-186): awaits the
seven resolver calls (`Promise.all`), reports their lengths and a
timestamp; if any awaited call rejects, the `catch` block produces a
single error text instead of any counts. -/
def contentfulStats (now : String)
    (posts : Except String (List BlogPost))
    (meetings : Except String (List Meeting))
    (currentEboard : Except String (List EboardMember))
    (pastEboard : Except String (List EboardMember))
    (hackathons : Except String (List Hackathon))
    (graphics : Except String (List LandingPageGraphic))
    (banners : Except String (List ParallaxBanner)) :
    Except String StatsOverview := do
  let p ← posts
  let m ← meetings
  let ce ← currentEboard
  let pe ← pastEboard
  let h ← hackathons
  let g ← graphics
  let b ← banners
  pure { counts := { blogPosts := p.length
                     meetings := m.length
                     currentEboardMembers := ce.length
                     pastEboardMembers := pe.length
                     hackathons := h.length
                     landingPageGraphics := g.length
                     parallaxBanners := b.length }
         lastUpdated := now }

/-- C1: every per-type query resolver is total (a Lean function of the
remote call's outcome) and fail-open: whenever the underlying remote call
throws, the list-returning resolvers return the empty array and the
single-entity lookups return null. -/
theorem c1_resolvers_fail_open (e slug title : String) (st : HackStatus)
    (creds : Bool) :
    getAllPosts (Except.error e) = [] ∧
    getAllMeetings (Except.error e) = [] ∧
    getUpcomingMeetings (Except.error e) = [] ∧
    getCurrentEboardMembers (Except.error e) = [] ∧
    getPastEboardMembers (Except.error e) = [] ∧
    getAllHackathons (Except.error e) = [] ∧
    getHackathonsByStatus st (Except.error e) = [] ∧
    getAllLandingPageGraphics (Except.error e) = [] ∧
    getParallaxBanners (Except.error e) = [] ∧
    getPostBySlug slug (Except.error e) = none ∧
    getHackathonBySlug slug (Except.error e) = none ∧
    getLandingPageGraphicByTitle title creds (Except.error e) = none := by
  refine ⟨rfl, rfl, rfl, rfl, rfl, rfl, rfl, rfl, rfl, rfl, rfl, ?_⟩
  cases creds <;> rfl

/-- C2: when either credential is empty, or constructing the client
throws, the failure is not propagated: the dummy client is installed, its
list-entries operation always resolves with an empty item list, and under
it every resolver call succeeds with an empty result. -/
theorem c2_null_handle_fallback (spaceId accessToken : String)
    (constructThrows : Bool)
    (h : spaceId = "" ∨ accessToken = "" ∨ constructThrows = true) :
    initClient spaceId accessToken constructThrows = ClientKind.dummy ∧
    (∀ q : GetEntriesQuery, dummyGetEntries (α := BlogPost) q = Except.ok []) ∧
    getAllPosts (dummyGetEntries getAllPostsQuery) = [] ∧
    getAllMeetings (dummyGetEntries getAllMeetingsQuery) = [] ∧
    getUpcomingMeetings (dummyGetEntries getUpcomingMeetingsQuery) = [] ∧
    getCurrentEboardMembers (dummyGetEntries getCurrentEboardMembersQuery) = [] ∧
    getPastEboardMembers (dummyGetEntries getPastEboardMembersQuery) = [] ∧
    getAllHackathons (dummyGetEntries getAllHackathonsQuery) = [] ∧
    (∀ st : HackStatus,
      getHackathonsByStatus st (dummyGetEntries getHackathonsByStatusQuery) = []) ∧
    getAllLandingPageGraphics (dummyGetEntries getAllLandingPageGraphicsQuery) = [] ∧
    getParallaxBanners (dummyGetEntries getParallaxBannersQuery) = [] ∧
    (∀ s : String, getPostBySlug s (dummyGetEntries (getPostBySlugQuery s)) = none) ∧
    (∀ s : String, getHackathonBySlug s (dummyGetEntries getHackathonBySlugQuery) = none) ∧
    (∀ (t : String) (c : Bool),
      getLandingPageGraphicByTitle t c
        (dummyGetEntries (getLandingPageGraphicByTitleQuery t)) = none) := by
  refine ⟨?_, fun _ => rfl, rfl, rfl, rfl, rfl, rfl, rfl, fun _ => rfl, rfl,
    rfl, fun _ => rfl, fun _ => rfl, fun _ c => by cases c <;> rfl⟩
  unfold initClient
  rcases h with h | h | h
  · rw [if_pos (Or.inl h)]
  · rw [if_pos (Or.inr h)]
  · subst h
    by_cases hs : spaceId = "" ∨ accessToken = ""
    · rw [if_pos hs]
    · rw [if_neg hs]
      rfl

/-- Witness for C2 at empty space identifier. -/
theorem c2_witness :
    initClient "" "tok" false = ClientKind.dummy ∧
    getAllPosts (dummyGetEntries getAllPostsQuery) = [] ∧
    getPostBySlug "s" (dummyGetEntries (getPostBySlugQuery "s")) = none := by
  obtain ⟨h1, _, h3, _, _, _, _, _, _, _, _, h12, _, _⟩ :=
    c2_null_handle_fallback "" "tok" false (Or.inl rfl)
  exact ⟨h1, h3, h12 "s"⟩

/-- C3: every record returned by any resolver carries the `contentTypeId`
of the logical content type that resolver queried for, stamped by the
resolver itself, never taken from the raw record (the raw records below
have arbitrary `contentTypeId`). -/
theorem c3_contentTypeId_stamped
    (rp rps : Except String (List BlogPost))
    (rm rum : Except String (List Meeting))
    (rce rpe : Except String (List EboardMember))
    (rh rhs rhb : Except String (List Hackathon))
    (rg rgt : Except String (List LandingPageGraphic))
    (rb : Except String (List ParallaxBanner))
    (slug : String) (st : HackStatus) (title : String) (creds : Bool) :
    ((getAllPosts rp).all fun x => x.contentTypeId == "blogPost") = true ∧
    ((getPostBySlug slug rps).all fun x => x.contentTypeId == "blogPost") = true ∧
    ((getAllMeetings rm).all fun x => x.contentTypeId == "meeting") = true ∧
    ((getUpcomingMeetings rum).all fun x => x.contentTypeId == "upcomingMeeting") = true ∧
    ((getCurrentEboardMembers rce).all fun x => x.contentTypeId == "eboardMember") = true ∧
    ((getPastEboardMembers rpe).all fun x => x.contentTypeId == "eboardMember") = true ∧
    ((getAllHackathons rh).all fun x => x.contentTypeId == "hackathon") = true ∧
    ((getHackathonsByStatus st rhs).all fun x => x.contentTypeId == "hackathon") = true ∧
    ((getHackathonBySlug slug rhb).all fun x => x.contentTypeId == "hackathon") = true ∧
    ((getAllLandingPageGraphics rg).all fun x => x.contentTypeId == "landingPageGraphics") = true ∧
    ((getLandingPageGraphicByTitle title creds rgt).all
        fun x => x.contentTypeId == "landingPageGraphics") = true ∧
    ((getParallaxBanners rb).all fun x => x.contentTypeId == "parallaxBanner") = true := by
  refine ⟨?_, ?_, ?_, ?_, ?_, ?_, ?_, ?_, ?_, ?_, ?_, ?_⟩
  · cases rp with
    | error e => rfl
    | ok items =>
      simp only [getAllPosts, List.all_eq_true, List.mem_map]
      rintro x ⟨i, _, rfl⟩
      rfl
  · cases rps with
    | error e => rfl
    | ok items => cases items <;> rfl
  · cases rm with
    | error e => rfl
    | ok items =>
      simp only [getAllMeetings, List.all_eq_true, List.mem_map]
      rintro x ⟨i, _, rfl⟩
      rfl
  · cases rum with
    | error e => rfl
    | ok items =>
      simp only [getUpcomingMeetings, List.all_eq_true, List.mem_map]
      rintro x ⟨i, _, rfl⟩
      rfl
  · cases rce with
    | error e => rfl
    | ok items =>
      simp only [getCurrentEboardMembers, List.all_eq_true, List.mem_map]
      rintro x ⟨i, _, rfl⟩
      rfl
  · cases rpe with
    | error e => rfl
    | ok items =>
      simp only [getPastEboardMembers, List.all_eq_true, List.mem_map]
      rintro x ⟨i, _, rfl⟩
      rfl
  · cases rh with
    | error e => rfl
    | ok items =>
      simp only [getAllHackathons, List.all_eq_true, List.mem_map]
      rintro x ⟨i, _, rfl⟩
      rfl
  · cases rhs with
    | error e => rfl
    | ok items =>
      simp only [getHackathonsByStatus, List.all_eq_true, List.mem_map]
      rintro x ⟨i, _, rfl⟩
      rfl
  · cases rhb with
    | error e => rfl
    | ok items =>
      simp only [getHackathonBySlug]
      cases items.find? (fun item => item.sys.id == slug) <;> rfl
  · cases rg with
    | error e => rfl
    | ok items =>
      simp only [getAllLandingPageGraphics, List.all_eq_true, List.mem_map]
      rintro x ⟨i, _, rfl⟩
      rfl
  · cases creds with
    | false => rfl
    | true =>
      cases rgt with
      | error e => rfl
      | ok items => cases items <;> rfl
  · cases rb with
    | error e => rfl
    | ok items =>
      simp only [getParallaxBanners, List.all_eq_true, List.mem_map]
      rintro x ⟨i, _, rfl⟩
      rfl

/-- Helper: the fallback classification assigns every fetched record to
exactly one of the three status classes, counted by filter lengths. -/
theorem statusClassCount (items : List Hackathon) :
    (items.filter
        (fun i => i.fields.status.getD HackStatus.upcoming == HackStatus.ongoing)).length +
      (items.filter
        (fun i => i.fields.status.getD HackStatus.upcoming == HackStatus.upcoming)).length +
      (items.filter
        (fun i => i.fields.status.getD HackStatus.upcoming == HackStatus.past)).length
      = items.length := by
  induction items with
  | nil => rfl
  | cons hd tl ih =>
    rcases hst : hd.fields.status.getD HackStatus.upcoming <;>
      simp [List.filter_cons, hst] <;> omega

/-- C4: `getHackathonsByStatus` issues a page capped at 100 with no
store-side status filter and classifies client-side, defaulting a missing
`status` to upcoming; exactly the records whose defaulted status equals
the requested one are returned, and the three partitions exhaust the
fetched set. -/
theorem c4_hackathons_by_status (st : HackStatus) (items : List Hackathon) :
    getHackathonsByStatusQuery.limit = some 100 ∧
    getHackathonsByStatusQuery.fieldFilters = [] ∧
    (∀ x, x ∈ getHackathonsByStatus st (Except.ok items) →
      ∃ i, i ∈ items ∧ i.fields.status.getD HackStatus.upcoming = st ∧
        x = { i with contentTypeId := "hackathon" }) ∧
    (∀ i, i ∈ items → i.fields.status.getD HackStatus.upcoming = st →
      { i with contentTypeId := "hackathon" } ∈
        getHackathonsByStatus st (Except.ok items)) ∧
    (getHackathonsByStatus HackStatus.ongoing (Except.ok items)).length +
      (getHackathonsByStatus HackStatus.upcoming (Except.ok items)).length +
      (getHackathonsByStatus HackStatus.past (Except.ok items)).length
      = items.length := by
  refine ⟨rfl, rfl, ?_, ?_, ?_⟩
  · intro x hx
    simp only [getHackathonsByStatus, List.mem_map, List.mem_filter] at hx
    obtain ⟨i, ⟨hi, hpred⟩, rfl⟩ := hx
    exact ⟨i, hi, by simpa using hpred, rfl⟩
  · intro i hi hst
    simp only [getHackathonsByStatus, List.mem_map]
    exact ⟨i, List.mem_filter.mpr ⟨hi, by simp [hst]⟩, rfl⟩
  · simp only [getHackathonsByStatus, List.length_map]
    exact statusClassCount items

/-- A raw hackathon record with no `status` field. -/
def hackNoStatus : Hackathon :=
  { sys := { id := "h1" }, contentTypeId := "raw",
    fields := { title := "Spring Hackathon", slug := some "spring-2024",
                description := "d", startDate := none, endDate := none,
                status := none, registrationLink := none, image := none } }

/-- A raw hackathon record classified `past`. -/
def hackPast : Hackathon :=
  { sys := { id := "h2" }, contentTypeId := "raw",
    fields := { title := "Fall Hackathon", slug := none,
                description := "d2", startDate := none, endDate := none,
                status := some HackStatus.past, registrationLink := none,
                image := none } }

/-- Witness for C4: a record with no `status` lands in the upcoming
partition, and the three partitions of a two-record fetch have total
size two. -/
theorem c4_witness :
    { hackNoStatus with contentTypeId := "hackathon" } ∈
      getHackathonsByStatus HackStatus.upcoming
        (Except.ok [hackNoStatus, hackPast]) ∧
    (getHackathonsByStatus HackStatus.ongoing
        (Except.ok [hackNoStatus, hackPast])).length +
      (getHackathonsByStatus HackStatus.upcoming
        (Except.ok [hackNoStatus, hackPast])).length +
      (getHackathonsByStatus HackStatus.past
        (Except.ok [hackNoStatus, hackPast])).length = 2 := by
  have h := c4_hackathons_by_status HackStatus.upcoming [hackNoStatus, hackPast]
  exact ⟨h.2.2.2.1 hackNoStatus (by simp) rfl, h.2.2.2.2⟩

/-- C7: `getHackathonBySlug` fetches a page capped at 100 and matches by
store identifier `sys.id`, not by the `slug` field; when no record's
identifier equals the parameter the result is null. -/
theorem c7_hackathon_by_slug_matches_id (slug : String) (items : List Hackathon) :
    getHackathonBySlugQuery.limit = some 100 ∧
    getHackathonBySlug slug (Except.ok items) =
      (items.find? (fun i => i.sys.id == slug)).map
        (fun i => { i with contentTypeId := "hackathon" }) ∧
    ((∀ i, i ∈ items → i.sys.id ≠ slug) →
      getHackathonBySlug slug (Except.ok items) = none) := by
  refine ⟨rfl, rfl, ?_⟩
  intro h
  have hnone : items.find? (fun i => i.sys.id == slug) = none := by
    rw [List.find?_eq_none]
    intro x hx
    simpa using h x hx
  simp [getHackathonBySlug, hnone]

/-- Witness for C7: a one-record fetch whose record's `slug` field equals
the parameter but whose identifier does not still yields null. -/
theorem c7_witness :
    getHackathonBySlug "spring-2024" (Except.ok [hackNoStatus]) = none ∧
    hackNoStatus.fields.slug = some "spring-2024" := by
  have h := c7_hackathon_by_slug_matches_id "spring-2024" [hackNoStatus]
  refine ⟨h.2.2 ?_, rfl⟩
  intro i hi
  rw [List.mem_singleton] at hi
  subst hi
  decide

/-- C5: in `search-content`, a record of a searched type passes the filter
exactly when one of that type's fixed searched fields contains the query
case-insensitively; each per-type result array keeps at most the limit
(default 5) matches, taken in the listing resolver's order (a sublist of
the projected listing), and the reported total equals the sum of the
per-type result counts. -/
theorem c5_search_matching (q : String) (limitOpt : Option Nat)
    (f : SearchFetches) :
    (searchContent q none limitOpt f).results =
      [("blogPosts",
        searchBlogPosts q (limitOpt.getD 5) (getAllPosts f.posts)),
       ("meetings",
        searchMeetings q (limitOpt.getD 5) (getAllMeetings f.meetings)),
       ("eboardMembers",
        searchMembers q (limitOpt.getD 5)
          (getCurrentEboardMembers f.currentEboard ++
            getPastEboardMembers f.pastEboard)),
       ("hackathons",
        searchHackathons q (limitOpt.getD 5) (getAllHackathons f.hackathons))] ∧
    (∀ (posts : List BlogPost) (p : BlogPost),
      p ∈ posts.filter (postMatches q) ↔
        p ∈ posts ∧ (matchesQuery q p.fields.title = true ∨
          matchesQuery q p.fields.excerpt = true ∨
          matchesQuery q p.fields.author = true)) ∧
    (∀ (meetings : List Meeting) (m : Meeting),
      m ∈ meetings.filter (meetingMatches q) ↔
        m ∈ meetings ∧ (matchesQuery q m.fields.title = true ∨
          matchesQuery q m.fields.description = true)) ∧
    (∀ (members : List EboardMember) (m : EboardMember),
      m ∈ members.filter (memberMatches q) ↔
        m ∈ members ∧ (matchesQuery q m.fields.name = true ∨
          matchesQuery q m.fields.position = true ∨
          matchesQuery q m.fields.description = true)) ∧
    (∀ (hacks : List Hackathon) (hk : Hackathon),
      hk ∈ hacks.filter (hackathonMatches q) ↔
        hk ∈ hacks ∧ (matchesQuery q hk.fields.title = true ∨
          matchesQuery q hk.fields.description = true)) ∧
    (∀ (limit : Nat) (posts : List BlogPost),
      (searchBlogPosts q limit posts).length ≤ limit) ∧
    (∀ (limit : Nat) (meetings : List Meeting),
      (searchMeetings q limit meetings).length ≤ limit) ∧
    (∀ (limit : Nat) (members : List EboardMember),
      (searchMembers q limit members).length ≤ limit) ∧
    (∀ (limit : Nat) (hacks : List Hackathon),
      (searchHackathons q limit hacks).length ≤ limit) ∧
    (∀ (limit : Nat) (posts : List BlogPost),
      List.Sublist (searchBlogPosts q limit posts) (posts.map projPost)) ∧
    (∀ (limit : Nat) (meetings : List Meeting),
      List.Sublist (searchMeetings q limit meetings) (meetings.map projMeeting)) ∧
    (∀ (limit : Nat) (members : List EboardMember),
      List.Sublist (searchMembers q limit members) (members.map projMember)) ∧
    (∀ (limit : Nat) (hacks : List Hackathon),
      List.Sublist (searchHackathons q limit hacks) (hacks.map projHackathon)) ∧
    (searchContent q none limitOpt f).totalResults =
      ((searchContent q none limitOpt f).results.map
        (fun kv => kv.2.length)).sum := by
  refine ⟨rfl, ?_, ?_, ?_, ?_, ?_, ?_, ?_, ?_, ?_, ?_, ?_, ?_, rfl⟩
  · intro posts p
    simp [List.mem_filter, postMatches, Bool.or_eq_true, or_assoc]
  · intro meetings m
    simp [List.mem_filter, meetingMatches, Bool.or_eq_true]
  · intro members m
    simp [List.mem_filter, memberMatches, Bool.or_eq_true, or_assoc]
  · intro hacks hk
    simp [List.mem_filter, hackathonMatches, Bool.or_eq_true]
  · intro limit posts
    simp only [searchBlogPosts, List.length_map, List.length_take]
    exact Nat.min_le_left _ _
  · intro limit meetings
    simp only [searchMeetings, List.length_map, List.length_take]
    exact Nat.min_le_left _ _
  · intro limit members
    simp only [searchMembers, List.length_map, List.length_take]
    exact Nat.min_le_left _ _
  · intro limit hacks
    simp only [searchHackathons, List.length_map, List.length_take]
    exact Nat.min_le_left _ _
  · intro limit posts
    exact ((List.take_sublist _ _).trans (List.filter_sublist _)).map _
  · intro limit meetings
    exact ((List.take_sublist _ _).trans (List.filter_sublist _)).map _
  · intro limit members
    exact ((List.take_sublist _ _).trans (List.filter_sublist _)).map _
  · intro limit hacks
    exact ((List.take_sublist _ _).trans (List.filter_sublist _)).map _

/-- The search fetch outcomes of a store holding exactly one hackathon,
titled "Spring Hackathon", and nothing else. -/
def fetchesOne : SearchFetches :=
  { posts := Except.ok [], meetings := Except.ok [],
    currentEboard := Except.ok [], pastEboard := Except.ok [],
    hackathons := Except.ok [hackNoStatus] }

/-- Witness for C5: the query "hackathon" against that store returns the
one matching record under the hackathons key and a total of 1. -/
theorem c5_witness :
    (searchContent "hackathon" none none fetchesOne).results =
      [("blogPosts", []), ("meetings", []), ("eboardMembers", []),
       ("hackathons",
        [SearchResultItem.hackathon "h1" "Spring Hackathon" "d" none])] ∧
    (searchContent "hackathon" none none fetchesOne).totalResults = 1 := by
  obtain ⟨h1, _, _, _, _, _, _, _, _, _, _, _, _, h14⟩ :=
    c5_search_matching "hackathon" none fetchesOne
  refine ⟨h1.trans (by decide), ?_⟩
  rw [h14, h1]
  decide

/-- Search fetch outcomes with every remote list empty. -/
def emptyFetches : SearchFetches :=
  { posts := Except.ok [], meetings := Except.ok [],
    currentEboard := Except.ok [], pastEboard := Except.ok [],
    hackathons := Except.ok [] }

/-- Counterexample for C6: invoked without an explicit type subset, the
envelope's content-type list is the full six-name default, not the four
types actually searched (the result keys). -/
theorem c6_envelope_counterexample :
    ((searchContent "x" none none emptyFetches).results.map Prod.fst) =
      ["blogPosts", "meetings", "eboardMembers", "hackathons"] ∧
    (searchContent "x" none none emptyFetches).contentTypes ≠
      [CType.blogPost, CType.meeting, CType.eboardMember, CType.hackathon] ∧
    (searchContent "x" none none emptyFetches).contentTypes =
      defaultSearchTypes := by
  exact ⟨by decide, by decide, rfl⟩

/-- C6 (amended): without an explicit subset, the types actually searched
are exactly blog posts, meetings, eboard members and hackathons, but the
envelope's content-type list echoes the default subset of all six names
rather than the subset actually searched. -/
theorem c6_default_scope_amended (q : String) (limitOpt : Option Nat)
    (f : SearchFetches) :
    ((searchContent q none limitOpt f).results.map Prod.fst) =
      ["blogPosts", "meetings", "eboardMembers", "hackathons"] ∧
    (searchContent q none limitOpt f).contentTypes = defaultSearchTypes ∧
    defaultSearchTypes =
      [CType.blogPost, CType.meeting, CType.eboardMember, CType.hackathon,
       CType.landingPageGraphics, CType.parallaxBanner] :=
  ⟨rfl, rfl, rfl⟩

/-- C10: for every query, requested subset and fetch outcome, the result
keys of `search-content` range over the four searchable types only — even
a subset explicitly naming graphics or banners produces no key for them
and they contribute nothing to the total. -/
theorem c10_search_never_yields_graphics_or_banners (q : String)
    (cts : Option (List CType)) (limitOpt : Option Nat) (f : SearchFetches) :
    (((searchContent q cts limitOpt f).results.map Prod.fst).all
      (fun k =>
        ["blogPosts", "meetings", "eboardMembers", "hackathons"].contains k))
      = true ∧
    (searchContent q cts limitOpt f).totalResults =
      ((searchContent q cts limitOpt f).results.map
        (fun kv => kv.2.length)).sum ∧
    (searchContent q (some [CType.landingPageGraphics, CType.parallaxBanner])
      limitOpt f).results = [] ∧
    (searchContent q (some [CType.landingPageGraphics, CType.parallaxBanner])
      limitOpt f).totalResults = 0 := by
  refine ⟨?_, rfl, rfl, rfl⟩
  simp only [searchContent]
  split_ifs <;> rfl

/-- C8: the statistics overview reports, for each full-listing resolver
call, a count equal to that resolver's result length for the same store
snapshot, plus the timestamp; and whenever any awaited resolver call
rejects, the response is a single error instead of any partial counts. -/
theorem c8_stats_counts (now e : String)
    (rp : Except String (List BlogPost)) (rm : Except String (List Meeting))
    (rce rpe : Except String (List EboardMember))
    (rh : Except String (List Hackathon))
    (rg : Except String (List LandingPageGraphic))
    (rb : Except String (List ParallaxBanner))
    (l1 : List BlogPost) (l2 : List Meeting) (l3 l4 : List EboardMember)
    (l5 : List Hackathon) (l6 : List LandingPageGraphic)
    (x2 : Except String (List Meeting)) (x3 x4 : Except String (List EboardMember))
    (x5 : Except String (List Hackathon))
    (x6 : Except String (List LandingPageGraphic))
    (x7 : Except String (List ParallaxBanner)) :
    contentfulStats now (Except.ok (getAllPosts rp))
        (Except.ok (getAllMeetings rm))
        (Except.ok (getCurrentEboardMembers rce))
        (Except.ok (getPastEboardMembers rpe))
        (Except.ok (getAllHackathons rh))
        (Except.ok (getAllLandingPageGraphics rg))
        (Except.ok (getParallaxBanners rb)) =
      Except.ok
        { counts := { blogPosts := (getAllPosts rp).length
                      meetings := (getAllMeetings rm).length
                      currentEboardMembers := (getCurrentEboardMembers rce).length
                      pastEboardMembers := (getPastEboardMembers rpe).length
                      hackathons := (getAllHackathons rh).length
                      landingPageGraphics := (getAllLandingPageGraphics rg).length
                      parallaxBanners := (getParallaxBanners rb).length }
          lastUpdated := now } ∧
    contentfulStats now (Except.error e) x2 x3 x4 x5 x6 x7 = Except.error e ∧
    contentfulStats now (Except.ok l1) (Except.error e) x3 x4 x5 x6 x7 =
      Except.error e ∧
    contentfulStats now (Except.ok l1) (Except.ok l2) (Except.error e) x4 x5
      x6 x7 = Except.error e ∧
    contentfulStats now (Except.ok l1) (Except.ok l2) (Except.ok l3)
      (Except.error e) x5 x6 x7 = Except.error e ∧
    contentfulStats now (Except.ok l1) (Except.ok l2) (Except.ok l3)
      (Except.ok l4) (Except.error e) x6 x7 = Except.error e ∧
    contentfulStats now (Except.ok l1) (Except.ok l2) (Except.ok l3)
      (Except.ok l4) (Except.ok l5) (Except.error e) x7 = Except.error e ∧
    contentfulStats now (Except.ok l1) (Except.ok l2) (Except.ok l3)
      (Except.ok l4) (Except.ok l5) (Except.ok l6) (Except.error e) =
      Except.error e :=
  ⟨rfl, rfl, rfl, rfl, rfl, rfl, rfl, rfl⟩

/-- An asset whose file object carries no url. -/
def assetNoUrl : Asset := { fields := some { file := some { url := none } } }

/-- A raw landing-page graphic with no `image` field and a `graphic` field
that carries no resolvable file url. -/
def graphicNoUrl : LandingPageGraphic :=
  { sys := { id := "g1" }, contentTypeId := "raw",
    fields := { title := "Banner", description := none, image := none,
                graphic := some assetNoUrl } }

/-- Counterexample for C9: with a url-less `graphic` and no `image`, no
canonical image url is produced, yet the returned record's `image` field
is not absent — it is backfilled with the `graphic` value. -/
theorem c9_image_backfill_counterexample :
    landingGraphicImageUrl graphicNoUrl.fields = none ∧
    (getLandingPageGraphicByTitle "Banner" true
        (Except.ok [graphicNoUrl])).map (fun r => r.fields.image) =
      some (some assetNoUrl) ∧
    (getLandingPageGraphicByTitle "Banner" true
        (Except.ok [graphicNoUrl])).map (fun r => r.fields.image) ≠
      some none :=
  ⟨rfl, rfl, by decide⟩

/-- C9 (amended): the returned record's `image` is `image || graphic` —
the raw `graphic` value when only `graphic` is present, the raw `image`
value whenever `image` is present — and the canonical image url prefers
the `image` chain over the `graphic` chain, staying absent when neither
resolves; the `image` field, however, is absent only when both raw fields
are absent. -/
theorem c9_image_backfill_amended (title : String)
    (item : LandingPageGraphic) (rest : List LandingPageGraphic) :
    getLandingPageGraphicByTitle title true (Except.ok (item :: rest)) =
      some { item with
             fields := { item.fields with
                         image := item.fields.image.orElse
                           (fun _ => item.fields.graphic) },
             contentTypeId := "landingPageGraphics" } ∧
    (item.fields.image = none →
      (getLandingPageGraphicByTitle title true
          (Except.ok (item :: rest))).map (fun r => r.fields.image) =
        some item.fields.graphic) ∧
    (∀ a : Asset, item.fields.image = some a →
      (getLandingPageGraphicByTitle title true
          (Except.ok (item :: rest))).map (fun r => r.fields.image) =
        some (some a)) ∧
    landingGraphicImageUrl item.fields =
      (item.fields.image.bind Asset.fileUrl).orElse
        (fun _ => item.fields.graphic.bind Asset.fileUrl) := by
  refine ⟨rfl, ?_, ?_, ?_⟩
  · intro h
    simp [getLandingPageGraphicByTitle, h, Option.orElse]
  · intro a h
    simp [getLandingPageGraphicByTitle, h, Option.orElse]
  · unfold landingGraphicImageUrl
    cases item.fields.image.bind Asset.fileUrl <;> rfl

/-- An asset whose file object carries a url. -/
def assetWithUrl : Asset :=
  { fields := some { file := some { url := some "https://img.example/hero.png" } } }

/-- A raw landing-page graphic carrying only a `graphic` field, with a
resolvable url. -/
def graphicOnly : LandingPageGraphic :=
  { sys := { id := "g2" }, contentTypeId := "raw",
    fields := { title := "Hero", description := none, image := none,
                graphic := some assetWithUrl } }

/-- Witness for C9 (amended): a graphic-only record has its `image`
backfilled with the `graphic` value and its canonical url taken from the
`graphic` chain. -/
theorem c9_witness :
    (getLandingPageGraphicByTitle "Hero" true
        (Except.ok [graphicOnly])).map (fun r => r.fields.image) =
      some (some assetWithUrl) ∧
    landingGraphicImageUrl graphicOnly.fields =
      some "https://img.example/hero.png" := by
  have h := c9_image_backfill_amended "Hero" graphicOnly []
  exact ⟨h.2.1 rfl, h.2.2.2.trans rfl⟩
